import Mathlib

/-!
Verification development for the Envoy router interface
(`include/envoy/router/router.h`): routing-table matching, the Route result
object, retry-decision state, and policy value objects.

The repository source is the abstract interface header; the behavioural
content (Config::route matching, RetryState::shouldRetry, virtual-cluster
resolution) is modelled from the specification, faithful to its words.
Machine integers are modelled as `Nat`; the `uint64_t random_value` only
matters modulo 10000, so no explicit wrap is needed.
-/

namespace Envoy
namespace Router

/-- Request headers, a list of (name, value) pairs in order.  The
pseudo-headers `:path`, `:method` and `:authority` live in the same map, as
in `Http::HeaderMap`. -/
structure RequestHeaders where
  entries : List (String × String)
deriving Repr, DecidableEq

/-- First value for a header name, as `HeaderMap::get`. -/
def RequestHeaders.get (h : RequestHeaders) (name : String) : Option String :=
  (h.entries.find? (fun kv => kv.1 == name)).map (fun kv => kv.2)

/-- The `:path` pseudo-header (empty when absent). -/
def RequestHeaders.path (h : RequestHeaders) : String :=
  (h.get ":path").getD ""

/-- The `:method` pseudo-header (empty when absent). -/
def RequestHeaders.method (h : RequestHeaders) : String :=
  (h.get ":method").getD ""

/-- The `:authority` (host) pseudo-header (empty when absent). -/
def RequestHeaders.authority (h : RequestHeaders) : String :=
  (h.get ":authority").getD ""

/-- `Upstream::ResourcePriority`: the small ordinal priority set. -/
inductive ResourcePriority
  | Default
  | High
deriving Repr, DecidableEq

/-- Route level retry policy (`RetryPolicy`): per-try timeout in
milliseconds, max retry count, and the retry-on bitmask. -/
structure RetryPolicy where
  perTryTimeout : Nat
  numRetries : Nat
  retryOn : Nat
deriving Repr, DecidableEq

namespace RetryPolicy

def RETRY_ON_5XX : Nat := 0x1
def RETRY_ON_CONNECT_FAILURE : Nat := 0x2
def RETRY_ON_RETRIABLE_4XX : Nat := 0x4
def RETRY_ON_REFUSED_STREAM : Nat := 0x8
def RETRY_ON_GRPC_CANCELLED : Nat := 0x10
def RETRY_ON_GRPC_DEADLINE_EXCEEDED : Nat := 0x20
def RETRY_ON_GRPC_RESOURCE_EXHAUSTED : Nat := 0x40

end RetryPolicy

/-- `RetryStatus`: whether the request should be retried or not. -/
inductive RetryStatus
  | No
  | NoOverflow
  | Yes
deriving Repr, DecidableEq, BEq

/-- `Http::StreamResetReason`, reduced to the distinctions the retry
policy reads: connect failure, refused stream, or any other reset. -/
inductive StreamResetReason
  | ConnectFailure
  | RefusedStream
  | OtherReset
deriving Repr, DecidableEq

/-- Modelled from the spec: the observable content of upstream response
headers that retry eligibility reads — the HTTP status, the optional
gRPC status (produced by the external gRPC-status extraction
collaborator), and whether the request is a gRPC call. -/
structure ResponseInfo where
  status : Nat
  grpcStatus : Option Nat
  isGrpcRequest : Bool
deriving Repr, DecidableEq

/-- Per route policy for request shadowing (`ShadowPolicy`): empty cluster
means no shadowing; an absent runtime key means every request is shadowed. -/
structure ShadowPolicy where
  cluster : String
  runtimeKey : Option String
deriving Repr, DecidableEq

/-- CORS policy for Route and VirtualHost (`CorsPolicy`). -/
structure CorsPolicy where
  allowOrigins : List String
  allowMethods : String
  allowHeaders : String
  exposeHeaders : String
  maxAge : String
  allowCredentials : Option Bool
  enabled : Bool
deriving Repr, DecidableEq

/-- Route hash policy (`HashPolicy`): hashing is driven by a configured
request header; the hash itself is consumed by the external load balancer. -/
structure HashPolicy where
  headerName : String
deriving Repr, DecidableEq

/-- Rate limit policy: an external type, opaque to this core. -/
structure RateLimitPolicy where
deriving Repr, DecidableEq

/-- An interface representing the Decorator, identified by the span
operation it applies. -/
structure Decorator where
  operation : String
deriving Repr, DecidableEq

/-- Path match kinds of a route or virtual-cluster matcher.  Modelled from
the spec: a predicate over the path, exact or by literal leading segment;
the regex flavour is matching by an external regex engine and is not
modelled (no claim depends on it). -/
inductive PathMatchKind
  | exactPath (value : String)
  | pathStartsWith (value : String)
deriving Repr, DecidableEq

/-- Whether one string is a literal leading fragment of another (over the
character lists, for kernel-computable evaluation). -/
def strStartsWith (s leading : String) : Bool :=
  leading.data.isPrefixOf s.data

/-- Whether one string is a literal trailing fragment of another. -/
def strEndsWith (s trailing : String) : Bool :=
  trailing.data.isSuffixOf s.data

/-- Drop the first `n` characters of a string. -/
def strDrop (s : String) (n : Nat) : String :=
  ⟨s.data.drop n⟩

/-- Whether a path match kind accepts a concrete path. -/
def PathMatchKind.accepts : PathMatchKind → String → Bool
  | .exactPath v, p => p == v
  | .pathStartsWith v, p => strStartsWith p v

/-- One header presence/value constraint of a route matcher: `value = none`
requires mere presence. -/
structure HeaderMatch where
  name : String
  value : Option String
deriving Repr, DecidableEq

/-- Whether a header constraint accepts the request headers. -/
def HeaderMatch.accepts (m : HeaderMatch) (h : RequestHeaders) : Bool :=
  match h.get m.name with
  | none => false
  | some v =>
    match m.value with
    | none => true
    | some req => v == req

/-- Virtual cluster definition (`VirtualCluster`): a stats-grouping label
matched against request attributes (path and method). -/
structure VirtualCluster where
  name : String
  pathMatch : PathMatchKind
  method : Option String
deriving Repr, DecidableEq

/-- Whether a virtual cluster's matcher accepts the request. -/
def VirtualCluster.accepts (vc : VirtualCluster) (h : RequestHeaders) : Bool :=
  vc.pathMatch.accepts h.path &&
    (match vc.method with
     | none => true
     | some m => h.method == m)

/-- A routing primitive that creates a redirect path (`RedirectEntry`):
a stateless function of the request headers producing the redirect URL,
driven by optional host and path overrides. -/
structure RedirectEntry where
  hostRedirect : Option String
  pathRedirect : Option String
deriving Repr, DecidableEq

/-- Returns the redirect path based on the request headers
(`RedirectEntry::newPath`). -/
def RedirectEntry.newPath (e : RedirectEntry) (h : RequestHeaders) : String :=
  "http://" ++ (e.hostRedirect.getD h.authority) ++ (e.pathRedirect.getD h.path)

/-- An individual resolved route entry (`RouteEntry`).  The virtual-host
back-reference is an index into the Config's arena of virtual hosts. -/
structure RouteEntry where
  clusterName : String
  timeout : Nat
  retryPolicy : RetryPolicy
  shadowPolicy : ShadowPolicy
  corsPolicy : Option CorsPolicy
  hashPolicy : Option HashPolicy
  priority : ResourcePriority
  rateLimitPolicy : RateLimitPolicy
  opaqueConfig : List (String × String)
  virtualClusters : List VirtualCluster
  autoHostRewrite : Bool
  useWebSocket : Bool
  includeVirtualHostRateLimits : Bool
  virtualHostIndex : Nat
deriving Repr, DecidableEq

/-- Determine whether a specific request belongs to a virtual cluster
(`RouteEntry::virtualCluster`).  Modelled from the spec: scans the entry's
virtual-cluster list in declared order and returns the first whose matcher
accepts the request, or none. -/
def RouteEntry.virtualCluster (e : RouteEntry) (h : RequestHeaders) :
    Option VirtualCluster :=
  e.virtualClusters.find? (fun vc => vc.accepts h)

/-- The declared matcher of one routing rule.  Modelled from the spec: a
predicate over path, HTTP method and header constraints, optionally gated
by a runtime-driven fractional sampler with a permille-of-10000 threshold. -/
structure RouteMatcher where
  pathMatch : PathMatchKind
  method : Option String
  headerMatches : List HeaderMatch
  runtimeThreshold : Option Nat
deriving Repr, DecidableEq

/-- Whether a route matcher accepts the request for the supplied random
value.  Modelled from the spec: all predicates must hold, and when a
fractional sampler is configured the rule only matches if
`randomValue mod 10000` falls below the threshold. -/
def RouteMatcher.accepts (m : RouteMatcher) (h : RequestHeaders)
    (randomValue : Nat) : Bool :=
  m.pathMatch.accepts h.path &&
    (match m.method with
     | none => true
     | some mth => h.method == mth) &&
    m.headerMatches.all (fun c => c.accepts h) &&
    (match m.runtimeThreshold with
     | none => true
     | some p => randomValue % 10000 < p)

/-- The action of a matched rule: forward to a route entry or reply with a
redirect entry. -/
inductive RouteAction
  | forward (entry : RouteEntry)
  | redirect (entry : RedirectEntry)
deriving Repr, DecidableEq

/-- One configured routing rule of a virtual host. -/
structure RouteRule where
  matcher : RouteMatcher
  action : RouteAction
  decorator : Option Decorator
deriving Repr, DecidableEq

/-- An interface that holds a RedirectEntry or a RouteEntry for a request
(`Route`), with its two nullable accessors and the optional decorator. -/
structure Route where
  redirectEntry : Option RedirectEntry
  routeEntry : Option RouteEntry
  decorator : Option Decorator
deriving Repr, DecidableEq

/-- Wrap a matched rule's action into the Route result object. -/
def RouteRule.toRoute (r : RouteRule) : Route :=
  match r.action with
  | .forward e =>
    { redirectEntry := none, routeEntry := some e, decorator := r.decorator }
  | .redirect e =>
    { redirectEntry := some e, routeEntry := none, decorator := r.decorator }

/-- Virtual host definition (`VirtualHost`): name, matched domain set,
optional CORS policy, rate-limit policy reference, and the ordered rules. -/
structure VirtualHost where
  name : String
  domains : List String
  corsPolicy : Option CorsPolicy
  rateLimitPolicy : RateLimitPolicy
  rules : List RouteRule
deriving Repr, DecidableEq

/-- The router configuration (`Config`). -/
structure Config where
  virtualHosts : List VirtualHost
  internalOnlyHeaders : List String
  responseHeadersToAdd : List (String × String)
  responseHeadersToRemove : List String
  usesRuntime : Bool
deriving Repr, DecidableEq

/-- Whether a wildcard domain pattern (leading `*`) matches the host by
suffix.  The bare `"*"` is the default virtual host, not a wildcard here. -/
def wildcardDomainMatches (host d : String) : Bool :=
  strStartsWith d "*" && d.data.length > 1 && strEndsWith host (strDrop d 1)

/-- All (domain length, virtual host) candidates whose wildcard domain
matches the host, in configuration order. -/
def wildcardCandidates (host : String) : List VirtualHost → List (Nat × VirtualHost)
  | [] => []
  | vh :: rest =>
    (vh.domains.filter (wildcardDomainMatches host)).map (fun d => (d.length, vh)) ++
      wildcardCandidates host rest

/-- Keep the candidate with the longer matched suffix, preferring the
earlier one on ties. -/
def betterCandidate (acc : Option (Nat × VirtualHost)) (c : Nat × VirtualHost) :
    Option (Nat × VirtualHost) :=
  match acc with
  | none => some c
  | some b => if b.1 < c.1 then some c else some b

/-- Among all wildcard domains of the virtual hosts, the one with the
longest matching suffix, if any.  Modelled from the spec: longest-suffix
precedence over wildcard domains. -/
def bestWildcardHost (vhs : List VirtualHost) (host : String) :
    Option VirtualHost :=
  ((wildcardCandidates host vhs).foldl betterCandidate none).map (fun x => x.2)

/-- Determine the virtual host whose domain set matches the request's
authority.  Modelled from the spec: exact-match precedence, then
longest-suffix wildcard, falling back to the default (`"*"`) virtual host. -/
def Config.findVirtualHost (cfg : Config) (host : String) :
    Option VirtualHost :=
  match cfg.virtualHosts.find? (fun vh => vh.domains.contains host) with
  | some vh => some vh
  | none =>
    match bestWildcardHost cfg.virtualHosts host with
    | some vh => some vh
    | none => cfg.virtualHosts.find? (fun vh => vh.domains.contains "*")

/-- Based on the incoming request headers, determine the target route
(`Config::route`).  Modelled from the spec: domain match selects the
virtual host, then its rules are evaluated in configuration order (first
match wins); no match yields none.  Read-only over the Config, which the
pure function type makes structural. -/
def Config.route (cfg : Config) (headers : RequestHeaders)
    (randomValue : Nat) : Option Route :=
  match cfg.findVirtualHost headers.authority with
  | none => none
  | some vh =>
    (vh.rules.find? (fun r => r.matcher.accepts headers randomValue)).map
      RouteRule.toRoute

/-- Observable scheduling effects of one `shouldRetry` call.  Modelled from
the spec: a `Yes` decision submits one deferred task through the external
backoff/timer collaborator (`schedule(delay, callback)`); an inline
invocation of the callback would be the distinct `invokeCallbackInline`
event, which the contract forbids. -/
inductive RetryEffect
  | scheduleCallback (delay : Nat)
  | invokeCallbackInline
deriving Repr, DecidableEq, BEq

/-- Modelled from the spec: the implementation-chosen backoff delay in
milliseconds for the given zero-based attempt count, monotonically
non-decreasing in the attempt count. -/
def backoffDelay (attempt : Nat) : Nat :=
  25 * 2 ^ attempt

/-- Wraps retry state for an active routed request (`RetryState`): the
immutable policy and the mutable remaining-retries counter. -/
structure RetryState where
  policy : RetryPolicy
  retriesRemaining : Nat
deriving Repr, DecidableEq

/-- The retry state created when a route resolves: the full `numRetries`
budget of the route's policy is still available. -/
def RetryState.initial (p : RetryPolicy) : RetryState :=
  { policy := p, retriesRemaining := p.numRetries }

/-- `RetryState::enabled`, with explicit state passing: true iff a policy
is in place that allows retries (a non-empty retry-on bitmask).  Modelled
from the spec: a read-only query, so the state component is returned
unchanged. -/
def RetryState.enabled (s : RetryState) : Bool × RetryState :=
  (s.policy.retryOn != 0, s)

/-- Modelled from the spec: eligibility of a reset reason under the
retry-on bitmask — connect-failure and refused-stream derive from the
reset reason; other resets match no condition. -/
def resetEligible (retryOn : Nat) : StreamResetReason → Bool
  | .ConnectFailure => retryOn &&& RetryPolicy.RETRY_ON_CONNECT_FAILURE != 0
  | .RefusedStream => retryOn &&& RetryPolicy.RETRY_ON_REFUSED_STREAM != 0
  | .OtherReset => false

/-- The fixed allow-list of retriable 4xx statuses. -/
def retriable4xxCodes : List Nat := [409]

/-- Modelled from the spec: eligibility of completed response headers under
the retry-on bitmask — 5xx matches any status ≥ 500, retriable-4xx matches
the fixed allow-list, and the three gRPC conditions read the extracted
gRPC status and only apply to gRPC calls. -/
def headersEligible (retryOn : Nat) (ri : ResponseInfo) : Bool :=
  (retryOn &&& RetryPolicy.RETRY_ON_5XX != 0 && decide (500 ≤ ri.status)) ||
  (retryOn &&& RetryPolicy.RETRY_ON_RETRIABLE_4XX != 0 &&
    retriable4xxCodes.contains ri.status) ||
  (ri.isGrpcRequest &&
    ((retryOn &&& RetryPolicy.RETRY_ON_GRPC_CANCELLED != 0 &&
        ri.grpcStatus == some 1) ||
     (retryOn &&& RetryPolicy.RETRY_ON_GRPC_DEADLINE_EXCEEDED != 0 &&
        ri.grpcStatus == some 4) ||
     (retryOn &&& RetryPolicy.RETRY_ON_GRPC_RESOURCE_EXHAUSTED != 0 &&
        ri.grpcStatus == some 8)))

/-- Modelled from the spec: whether the observed outcome matches a
condition of the retry-on bitmask.  When both response headers and a reset
reason are provided, the reset reason takes precedence (the response never
completed). -/
def outcomeEligible (retryOn : Nat) (responseHeaders : Option ResponseInfo)
    (resetReason : Option StreamResetReason) : Bool :=
  match resetReason with
  | some r => resetEligible retryOn r
  | none =>
    match responseHeaders with
    | some ri => headersEligible retryOn ri
    | none => false

/-- `RetryState::shouldRetry`, modelled from the spec as a pure state
transition.  `admissionGranted` is the answer of the external
retry-admission collaborator (`tryAcquireRetry`), consulted only for an
eligible decision with budget remaining.  Returns the decision, the
successor state, and the scheduling effects: `No` when the outcome matches
no retry-on condition or the budget is exhausted (no effects); `Yes` when
admission is granted, consuming one budget unit and scheduling the callback
once through the backoff/timer collaborator; `NoOverflow` when admission is
denied (no effects). -/
def RetryState.shouldRetry (s : RetryState)
    (responseHeaders : Option ResponseInfo)
    (resetReason : Option StreamResetReason) (admissionGranted : Bool) :
    RetryStatus × RetryState × List RetryEffect :=
  if s.retriesRemaining == 0 ||
      !outcomeEligible s.policy.retryOn responseHeaders resetReason then
    (.No, s, [])
  else if admissionGranted then
    (.Yes, { s with retriesRemaining := s.retriesRemaining - 1 },
      [.scheduleCallback (backoffDelay (s.policy.numRetries - s.retriesRemaining))])
  else
    (.NoOverflow, s, [])

/-- The inputs of one `shouldRetry` call, for reasoning about call
sequences over one retry state. -/
structure RetryCall where
  responseHeaders : Option ResponseInfo
  resetReason : Option StreamResetReason
  admissionGranted : Bool
deriving Repr, DecidableEq

/-- Run a sequence of `shouldRetry` calls, threading the state and
collecting the decisions in order. -/
def RetryState.runCalls (s : RetryState) :
    List RetryCall → RetryState × List RetryStatus
  | [] => (s, [])
  | c :: cs =>
    let step := s.shouldRetry c.responseHeaders c.resetReason c.admissionGranted
    let rest := step.2.1.runCalls cs
    (rest.1, step.1 :: rest.2)

/-- Apply a route-entry transformation to a rule's action, leaving the
matcher, redirect entries and decorator untouched. -/
def RouteRule.mapEntry (f : RouteEntry → RouteEntry) (r : RouteRule) : RouteRule :=
  { r with
    action :=
      match r.action with
      | .forward e => .forward (f e)
      | .redirect d => .redirect d }

/-- Apply a route-entry transformation to a Route result object. -/
def Route.mapEntry (f : RouteEntry → RouteEntry) (r : Route) : Route :=
  { r with routeEntry := r.routeEntry.map f }

/-- Apply a route-entry transformation to a virtual host's rules. -/
def VirtualHost.mapEntries (f : RouteEntry → RouteEntry) (vh : VirtualHost) :
    VirtualHost :=
  { vh with rules := vh.rules.map (RouteRule.mapEntry f) }

/-- Apply a route-entry transformation across a whole configuration. -/
def Config.mapEntries (f : RouteEntry → RouteEntry) (cfg : Config) : Config :=
  { cfg with virtualHosts := cfg.virtualHosts.map (VirtualHost.mapEntries f) }

/-- Replace a route entry's virtual-cluster list. -/
def RouteEntry.withVirtualClusters (e : RouteEntry) (l : List VirtualCluster) :
    RouteEntry :=
  { e with virtualClusters := l }

/-- The end-to-end scenario's retry policy: retry on 5xx, two retries,
500ms per-try timeout. -/
def demoRetryPolicy : RetryPolicy :=
  { perTryTimeout := 500, numRetries := 2, retryOn := RetryPolicy.RETRY_ON_5XX }

/-- The end-to-end scenario's route entry: cluster `"backend"`. -/
def demoEntry : RouteEntry :=
  { clusterName := "backend"
    timeout := 15000
    retryPolicy := demoRetryPolicy
    shadowPolicy := { cluster := "", runtimeKey := none }
    corsPolicy := none
    hashPolicy := none
    priority := .Default
    rateLimitPolicy := {}
    opaqueConfig := []
    virtualClusters := []
    autoHostRewrite := false
    useWebSocket := false
    includeVirtualHostRateLimits := false
    virtualHostIndex := 0 }

/-- The end-to-end scenario's rule: path starts with `/api`. -/
def demoRule : RouteRule :=
  { matcher :=
      { pathMatch := .pathStartsWith "/api"
        method := none
        headerMatches := []
        runtimeThreshold := none }
    action := .forward demoEntry
    decorator := none }

/-- The end-to-end scenario's virtual host `"svc"`. -/
def demoVHost : VirtualHost :=
  { name := "svc"
    domains := ["svc.example.com"]
    corsPolicy := none
    rateLimitPolicy := {}
    rules := [demoRule] }

/-- The end-to-end scenario's configuration. -/
def demoConfig : Config :=
  { virtualHosts := [demoVHost]
    internalOnlyHeaders := []
    responseHeadersToAdd := []
    responseHeadersToRemove := []
    usesRuntime := false }

/-- The end-to-end scenario's request headers: `GET /api/users` with host
`svc.example.com`. -/
def demoHeaders : RequestHeaders :=
  ⟨[(":method", "GET"), (":path", "/api/users"), (":authority", "svc.example.com")]⟩

/-- The Route the scenario resolves to. -/
def demoRoute : Route :=
  { redirectEntry := none, routeEntry := some demoEntry, decorator := none }

/-- A rule matcher gated by a fractional sampler at threshold 2500 of
10000, with no other constraint beyond a path of `/`. -/
def demoSamplerMatcher : RouteMatcher :=
  { pathMatch := .pathStartsWith "/"
    method := none
    headerMatches := []
    runtimeThreshold := some 2500 }

/-- A 5xx retry policy with a single-retry budget. -/
def onePolicy : RetryPolicy :=
  { perTryTimeout := 500, numRetries := 1, retryOn := RetryPolicy.RETRY_ON_5XX }

/-- A 503 upstream response (not a gRPC call). -/
def resp503 : ResponseInfo :=
  { status := 503, grpcStatus := none, isGrpcRequest := false }

/-- A 404 upstream response (not a gRPC call). -/
def resp404 : ResponseInfo :=
  { status := 404, grpcStatus := none, isGrpcRequest := false }

/-- One `shouldRetry` call observing a 503 with admission granted. -/
def yes503Call : RetryCall :=
  { responseHeaders := some resp503, resetReason := none, admissionGranted := true }

/-- A virtual cluster matching `/api` requests. -/
def demoVC : VirtualCluster :=
  { name := "api-vc", pathMatch := .pathStartsWith "/api", method := none }

/-- The scenario's route entry carrying one virtual cluster. -/
def demoEntryVC : RouteEntry :=
  demoEntry.withVirtualClusters [demoVC]

/-!
### Helper lemmas

Shared facts about the retry decision and list scanning, used by the
claim theorems below.
-/

theorem shouldRetry_of_exhausted (s : RetryState) (resp : Option ResponseInfo)
    (reset : Option StreamResetReason) (g : Bool)
    (h : s.retriesRemaining = 0) :
    s.shouldRetry resp reset g = (.No, s, []) := by
  simp [RetryState.shouldRetry, h]

theorem shouldRetry_of_ineligible (s : RetryState) (resp : Option ResponseInfo)
    (reset : Option StreamResetReason) (g : Bool)
    (h : outcomeEligible s.policy.retryOn resp reset = false) :
    s.shouldRetry resp reset g = (.No, s, []) := by
  simp [RetryState.shouldRetry, h]

theorem shouldRetry_policy_eq (s : RetryState) (resp : Option ResponseInfo)
    (reset : Option StreamResetReason) (g : Bool) :
    (s.shouldRetry resp reset g).2.1.policy = s.policy := by
  unfold RetryState.shouldRetry
  split
  · rfl
  · split <;> rfl

theorem shouldRetry_remaining (s : RetryState) (resp : Option ResponseInfo)
    (reset : Option StreamResetReason) (g : Bool) :
    (s.shouldRetry resp reset g).2.1.retriesRemaining +
      (if (s.shouldRetry resp reset g).1 = RetryStatus.Yes then 1 else 0) =
      s.retriesRemaining := by
  unfold RetryState.shouldRetry
  split
  · simp
  · next hcond =>
    have hne : s.retriesRemaining ≠ 0 := by
      intro h0
      exact hcond (by simp [h0])
    split <;> (simp; try omega)

theorem runCalls_policy (s : RetryState) (cs : List RetryCall) :
    ((s.runCalls cs).1).policy = s.policy := by
  induction cs generalizing s with
  | nil => rfl
  | cons c cs ih =>
    simp only [RetryState.runCalls]
    rw [ih, shouldRetry_policy_eq]

theorem runCalls_remaining (s : RetryState) (cs : List RetryCall) :
    ((s.runCalls cs).1).retriesRemaining +
      ((s.runCalls cs).2.count RetryStatus.Yes) = s.retriesRemaining := by
  induction cs generalizing s with
  | nil => simp [RetryState.runCalls]
  | cons c cs ih =>
    simp only [RetryState.runCalls, List.count_cons]
    have h1 := ih (s.shouldRetry c.responseHeaders c.resetReason c.admissionGranted).2.1
    have h2 := shouldRetry_remaining s c.responseHeaders c.resetReason c.admissionGranted
    cases hy : (s.shouldRetry c.responseHeaders c.resetReason c.admissionGranted).1
    case No =>
      rw [hy, if_neg (by decide)] at h2
      rw [if_neg (by decide)]
      omega
    case NoOverflow =>
      rw [hy, if_neg (by decide)] at h2
      rw [if_neg (by decide)]
      omega
    case Yes =>
      rw [hy, if_pos rfl] at h2
      rw [if_pos (by decide)]
      omega

/-!
### Claim theorems
-/

/-- C2: for every call to `RetryState::shouldRetry`, if the policy's
retry-on bitmask contains no condition matching the observed outcome, or
the retry budget is already exhausted, then `shouldRetry` returns `No`
immediately and synchronously — the state is unchanged and no scheduling
effect is produced, so the supplied callback is never invoked. -/
theorem shouldRetry_no_when_unmatched_or_exhausted (s : RetryState)
    (resp : Option ResponseInfo) (reset : Option StreamResetReason) (g : Bool)
    (h : outcomeEligible s.policy.retryOn resp reset = false ∨
      s.retriesRemaining = 0) :
    s.shouldRetry resp reset g = (RetryStatus.No, s, []) := by
  rcases h with h | h
  · exact shouldRetry_of_ineligible s resp reset g h
  · exact shouldRetry_of_exhausted s resp reset g h

/-- Witness for C2: a 404 response under a 5xx-only policy with budget
remaining yields `No` with no scheduled callback. -/
theorem shouldRetry_no_when_unmatched_or_exhausted_witness :
    (RetryState.initial onePolicy).shouldRetry (some resp404) none true =
      (RetryStatus.No, RetryState.initial onePolicy, []) :=
  shouldRetry_no_when_unmatched_or_exhausted (RetryState.initial onePolicy)
    (some resp404) none true (Or.inl (by decide))

/-- C4: once `numRetries` calls to `shouldRetry` have returned `Yes`, every
subsequent call returns `No` for any outcome, whether or not the
admission-control collaborator would grant a slot. -/
theorem shouldRetry_no_after_budget_consumed (p : RetryPolicy)
    (cs : List RetryCall)
    (hy : (((RetryState.initial p).runCalls cs).2).count RetryStatus.Yes =
      p.numRetries)
    (resp : Option ResponseInfo) (reset : Option StreamResetReason) (g : Bool) :
    ((((RetryState.initial p).runCalls cs).1).shouldRetry resp reset g).1 =
      RetryStatus.No := by
  have h := runCalls_remaining (RetryState.initial p) cs
  rw [hy] at h
  have h0 : (((RetryState.initial p).runCalls cs).1).retriesRemaining = 0 := by
    have : (RetryState.initial p).retriesRemaining = p.numRetries := rfl
    omega
  rw [shouldRetry_of_exhausted _ resp reset g h0]

/-- Witness for C4: a single-retry policy that has already produced one
`Yes` decision answers `No` to a further eligible 503 even with admission
granted. -/
theorem shouldRetry_no_after_budget_consumed_witness :
    ((((RetryState.initial onePolicy).runCalls [yes503Call]).2).count
        RetryStatus.Yes = onePolicy.numRetries) ∧
    ((((RetryState.initial onePolicy).runCalls [yes503Call]).1).shouldRetry
        (some resp503) none true).1 = RetryStatus.No :=
  ⟨by decide,
    shouldRetry_no_after_budget_consumed onePolicy [yes503Call] (by decide)
      (some resp503) none true⟩

/-- C5: `shouldRetry` never invokes the callback inline; a `Yes` decision
schedules it exactly once through the backoff/timer collaborator, and a
`No` or `NoOverflow` decision produces no scheduling effect at all. -/
theorem shouldRetry_callback_discipline (s : RetryState)
    (resp : Option ResponseInfo) (reset : Option StreamResetReason) (g : Bool) :
    RetryEffect.invokeCallbackInline ∉ (s.shouldRetry resp reset g).2.2 ∧
    ((s.shouldRetry resp reset g).1 = RetryStatus.Yes →
      ∃ d, (s.shouldRetry resp reset g).2.2 = [RetryEffect.scheduleCallback d]) ∧
    ((s.shouldRetry resp reset g).1 ≠ RetryStatus.Yes →
      (s.shouldRetry resp reset g).2.2 = []) := by
  unfold RetryState.shouldRetry
  split
  · simp
  · split <;> simp

/-- Witness for C5: the scenario's first 503 produces a `Yes` whose only
effect is one scheduled callback. -/
theorem shouldRetry_callback_discipline_witness :
    ∃ d, ((RetryState.initial onePolicy).shouldRetry (some resp503) none
        true).2.2 = [RetryEffect.scheduleCallback d] :=
  (shouldRetry_callback_discipline (RetryState.initial onePolicy)
    (some resp503) none true).2.1 (by decide)

/-- C7: when both response headers and a reset reason are supplied, the
decision is determined by the reset reason alone — the call is
indistinguishable from one made without the response headers. -/
theorem reset_reason_takes_precedence (s : RetryState) (ri : ResponseInfo)
    (r : StreamResetReason) (g : Bool) :
    s.shouldRetry (some ri) (some r) g = s.shouldRetry none (some r) g := rfl

/-- C10: `RetryState::enabled` returns true iff a retry-allowing policy (a
non-empty retry-on bitmask) is in place, leaves the state unchanged, and
does not affect the outcome of subsequent `shouldRetry` calls. -/
theorem enabled_iff_policy_allows (s : RetryState) :
    (s.enabled.1 = true ↔ s.policy.retryOn ≠ 0) ∧
    s.enabled.2 = s ∧
    (∀ resp reset g,
      s.enabled.2.shouldRetry resp reset g = s.shouldRetry resp reset g) := by
  refine ⟨?_, rfl, fun _ _ _ => rfl⟩
  simp [RetryState.enabled]

/-- C6: under a policy with `retryOn = 5xx` and budget remaining, a 503
response yields `Yes` when admission is granted and `NoOverflow` when it is
denied — never `No` — while a 404 response yields `No`. -/
theorem retry_on_5xx_503_never_no_404_no (s : RetryState)
    (hp : s.policy.retryOn = RetryPolicy.RETRY_ON_5XX)
    (hb : s.retriesRemaining ≠ 0) (g g' : Bool) (gs gs' : Option Nat)
    (ig ig' : Bool) :
    ((s.shouldRetry (some ⟨503, gs, ig⟩) none g).1 =
        (if g then RetryStatus.Yes else RetryStatus.NoOverflow) ∧
      (s.shouldRetry (some ⟨503, gs, ig⟩) none g).1 ≠ RetryStatus.No) ∧
    (s.shouldRetry (some ⟨404, gs', ig'⟩) none g').1 = RetryStatus.No := by
  have helig503 : outcomeEligible s.policy.retryOn (some ⟨503, gs, ig⟩) none = true := by
    rw [hp]
    simp [outcomeEligible, headersEligible, RetryPolicy.RETRY_ON_5XX]
  have helig404 : outcomeEligible s.policy.retryOn (some ⟨404, gs', ig'⟩) none = false := by
    rw [hp]
    simp [outcomeEligible, headersEligible, retriable4xxCodes,
      RetryPolicy.RETRY_ON_5XX, RetryPolicy.RETRY_ON_RETRIABLE_4XX,
      RetryPolicy.RETRY_ON_GRPC_CANCELLED,
      RetryPolicy.RETRY_ON_GRPC_DEADLINE_EXCEEDED,
      RetryPolicy.RETRY_ON_GRPC_RESOURCE_EXHAUSTED]
  have h503 : (s.shouldRetry (some ⟨503, gs, ig⟩) none g).1 =
      (if g then RetryStatus.Yes else RetryStatus.NoOverflow) := by
    unfold RetryState.shouldRetry
    rw [helig503]
    simp [hb]
    cases g <;> simp
  refine ⟨⟨h503, ?_⟩, ?_⟩
  · rw [h503]
    cases g <;> decide
  · rw [shouldRetry_of_ineligible s _ none g' helig404]

/-- Witness for C6: a fresh single-retry 5xx state distinguishes 503 with
admission granted (`Yes`), 503 with admission denied (`NoOverflow`) and
404 (`No`). -/
theorem retry_on_5xx_503_never_no_404_no_witness :
    (((RetryState.initial onePolicy).shouldRetry (some ⟨503, none, false⟩)
          none true).1 = (if true then RetryStatus.Yes else RetryStatus.NoOverflow) ∧
      ((RetryState.initial onePolicy).shouldRetry (some ⟨503, none, false⟩)
          none true).1 ≠ RetryStatus.No) ∧
    ((RetryState.initial onePolicy).shouldRetry (some ⟨404, none, false⟩)
        none true).1 = RetryStatus.No :=
  retry_on_5xx_503_never_no_404_no (RetryState.initial onePolicy) rfl
    (by decide) true true none none false false

/-- C1: a Route returned by `Config::route` never exposes both
`redirectEntry()` and `routeEntry()` as non-null: the matched rule's action
fills exactly one of the two. -/
theorem route_never_both_entries (cfg : Config) (hd : RequestHeaders)
    (rv : Nat) (r : Route) (hr : cfg.route hd rv = some r) :
    ¬ (r.redirectEntry.isSome = true ∧ r.routeEntry.isSome = true) := by
  unfold Config.route at hr
  cases hfv : cfg.findVirtualHost hd.authority with
  | none => rw [hfv] at hr; cases hr
  | some vh =>
    rw [hfv] at hr
    simp only [Option.map_eq_some'] at hr
    obtain ⟨rule, _, hto⟩ := hr
    subst hto
    cases hact : rule.action <;> simp [RouteRule.toRoute, hact]

/-- Witness for C1: the end-to-end scenario's request resolves to a Route
with a route entry only. -/
theorem route_never_both_entries_witness :
    demoConfig.route demoHeaders 0 = some demoRoute ∧
    ¬ (demoRoute.redirectEntry.isSome = true ∧
        demoRoute.routeEntry.isSome = true) :=
  ⟨rfl, route_never_both_entries demoConfig demoHeaders 0 demoRoute rfl⟩

/-- C3: `Config::route` is deterministic and side-effect-free — it is a
pure function of the configuration, the request headers and the random
value, so equal arguments produce equal match results and the Config is
never modified (it is not part of the output). -/
theorem route_deterministic (cfg cfg' : Config) (hd hd' : RequestHeaders)
    (rv rv' : Nat) (hc : cfg = cfg') (hh : hd = hd') (hr : rv = rv') :
    cfg.route hd rv = cfg'.route hd' rv' := by
  subst hc
  subst hh
  subst hr
  rfl

/-- Witness for C3: two evaluations of the scenario's request agree. -/
theorem route_deterministic_witness :
    demoConfig.route demoHeaders 7 = demoConfig.route demoHeaders 7 :=
  route_deterministic demoConfig demoConfig demoHeaders demoHeaders 7 7
    rfl rfl rfl

theorem countP_lt_range (p n : Nat) :
    (List.range n).countP (fun v => decide (v < p)) = min p n := by
  induction n with
  | zero => simp
  | succ n ih =>
    rw [List.range_succ, List.countP_append, ih]
    by_cases h : n < p
    · simp [List.countP_cons, h]
      omega
    · simp [List.countP_cons, h]
      omega

/-- C9: a rule gated by a fractional sampler at threshold `p` of 10000
matches exactly when `randomValue mod 10000` is below `p` (all other
constraints being satisfied), and over the uniform range `[0, 9999]` of
random values the matching branch is taken for exactly `p` of the 10000
values. -/
theorem fractional_sampler_threshold (m : RouteMatcher) (h : RequestHeaders)
    (p rv : Nat) (ht : m.runtimeThreshold = some p)
    (hpath : m.pathMatch.accepts h.path = true)
    (hmethod : (match m.method with
      | none => true
      | some mth => h.method == mth) = true)
    (hheaders : m.headerMatches.all (fun c => c.accepts h) = true)
    (hp : p ≤ 10000) :
    (m.accepts h rv = true ↔ rv % 10000 < p) ∧
    (List.range 10000).countP (fun v => decide (v % 10000 < p)) = p := by
  constructor
  · unfold RouteMatcher.accepts
    rw [ht, hpath, hmethod, hheaders]
    simp
  · have hcongr : ∀ v ∈ List.range 10000,
        (decide (v % 10000 < p) = true ↔ decide (v < p) = true) := by
      intro v hv
      rw [List.mem_range] at hv
      rw [Nat.mod_eq_of_lt hv]
    rw [List.countP_congr hcongr, countP_lt_range]
    omega

/-- Witness for C9: the sampler matcher at threshold 2500 matches random
value 1234 and the count over `[0, 9999]` is 2500. -/
theorem fractional_sampler_threshold_witness :
    (demoSamplerMatcher.accepts demoHeaders 1234 = true ↔ 1234 % 10000 < 2500) ∧
    (List.range 10000).countP (fun v => decide (v % 10000 < 2500)) = 2500 :=
  fractional_sampler_threshold demoSamplerMatcher demoHeaders 2500 1234
    rfl rfl rfl rfl (by decide)

theorem find?_eq_some_first {α} (q : α → Bool) (l : List α) (a : α)
    (h : l.find? q = some a) :
    q a = true ∧ ∃ l1 l2, l = l1 ++ a :: l2 ∧ ∀ x ∈ l1, q x = false := by
  induction l with
  | nil => cases h
  | cons b t ih =>
    by_cases hb : q b = true
    · rw [List.find?_cons_of_pos _ hb] at h
      obtain rfl : b = a := by injection h
      exact ⟨hb, [], t, rfl, by simp⟩
    · rw [List.find?_cons_of_neg _ (by simpa using hb)] at h
      obtain ⟨hq, l1, l2, heq, hall⟩ := ih h
      refine ⟨hq, b :: l1, l2, by rw [heq]; rfl, ?_⟩
      intro x hx
      rcases List.mem_cons.mp hx with rfl | hx
      · simpa using hb
      · exact hall x hx

theorem find?_map_pred {α β} (f : α → β) (p : β → Bool) (q : α → Bool)
    (hpq : ∀ a, p (f a) = q a) (l : List α) :
    (l.map f).find? p = (l.find? q).map f := by
  induction l with
  | nil => rfl
  | cons a t ih =>
    simp only [List.map_cons]
    by_cases hq : q a = true
    · rw [List.find?_cons_of_pos _ (by rw [hpq]; exact hq),
        List.find?_cons_of_pos _ hq]
      rfl
    · rw [List.find?_cons_of_neg _ (by rw [hpq]; simpa using hq),
        List.find?_cons_of_neg _ (by simpa using hq)]
      exact ih

theorem wildcardCandidates_map (t : VirtualHost → VirtualHost)
    (hd : ∀ vh, (t vh).domains = vh.domains) (host : String)
    (vhs : List VirtualHost) :
    wildcardCandidates host (vhs.map t) =
      (wildcardCandidates host vhs).map (fun c => (c.1, t c.2)) := by
  induction vhs with
  | nil => rfl
  | cons vh rest ih =>
    simp only [List.map_cons, wildcardCandidates, hd, ih, List.map_append,
      List.map_map]
    rfl

theorem foldl_betterCandidate_map (t : VirtualHost → VirtualHost)
    (l : List (Nat × VirtualHost)) (acc : Option (Nat × VirtualHost)) :
    (l.map (fun c => (c.1, t c.2))).foldl betterCandidate
        (acc.map (fun c => (c.1, t c.2))) =
      (l.foldl betterCandidate acc).map (fun c => (c.1, t c.2)) := by
  induction l generalizing acc with
  | nil => rfl
  | cons c l ih =>
    simp only [List.map_cons, List.foldl_cons]
    rw [← ih]
    congr 1
    cases acc with
    | none => rfl
    | some b =>
      simp only [Option.map_some', betterCandidate]
      by_cases hlt : b.1 < c.1 <;> simp [hlt]

theorem bestWildcardHost_map (t : VirtualHost → VirtualHost)
    (hd : ∀ vh, (t vh).domains = vh.domains) (vhs : List VirtualHost)
    (host : String) :
    bestWildcardHost (vhs.map t) host = (bestWildcardHost vhs host).map t := by
  unfold bestWildcardHost
  rw [wildcardCandidates_map t hd]
  have hfold := foldl_betterCandidate_map t (wildcardCandidates host vhs) none
  simp only [Option.map_none'] at hfold
  rw [hfold]
  cases (wildcardCandidates host vhs).foldl betterCandidate none with
  | none => rfl
  | some c => rfl

theorem findVirtualHost_mapEntries (f : RouteEntry → RouteEntry)
    (cfg : Config) (host : String) :
    (cfg.mapEntries f).findVirtualHost host =
      (cfg.findVirtualHost host).map (VirtualHost.mapEntries f) := by
  unfold Config.findVirtualHost
  have hvhs : (cfg.mapEntries f).virtualHosts =
      cfg.virtualHosts.map (VirtualHost.mapEntries f) := rfl
  have hd : ∀ vh, (VirtualHost.mapEntries f vh).domains = vh.domains :=
    fun _ => rfl
  rw [hvhs,
    find?_map_pred (VirtualHost.mapEntries f) _
      (fun vh => vh.domains.contains host) (fun _ => rfl),
    find?_map_pred (VirtualHost.mapEntries f) _
      (fun vh => vh.domains.contains "*") (fun _ => rfl),
    bestWildcardHost_map (VirtualHost.mapEntries f) hd]
  cases cfg.virtualHosts.find? (fun vh => vh.domains.contains host) with
  | some vh => rfl
  | none =>
    cases bestWildcardHost cfg.virtualHosts host with
    | some vh => rfl
    | none => rfl

theorem toRoute_mapEntry (f : RouteEntry → RouteEntry) (r : RouteRule) :
    (RouteRule.mapEntry f r).toRoute = Route.mapEntry f r.toRoute := by
  cases hr : r.action <;>
    simp [RouteRule.toRoute, RouteRule.mapEntry, Route.mapEntry, hr]

theorem route_mapEntries (f : RouteEntry → RouteEntry) (cfg : Config)
    (hdrs : RequestHeaders) (rv : Nat) :
    (cfg.mapEntries f).route hdrs rv =
      (cfg.route hdrs rv).map (Route.mapEntry f) := by
  unfold Config.route
  rw [findVirtualHost_mapEntries]
  cases cfg.findVirtualHost hdrs.authority with
  | none => rfl
  | some vh =>
    simp only [Option.map_some']
    have hrules : (VirtualHost.mapEntries f vh).rules =
        vh.rules.map (RouteRule.mapEntry f) := rfl
    rw [hrules,
      find?_map_pred (RouteRule.mapEntry f) _
        (fun r => r.matcher.accepts hdrs rv) (fun _ => rfl)]
    cases vh.rules.find? (fun r => r.matcher.accepts hdrs rv) with
    | none => rfl
    | some r =>
      simp only [Option.map_some']
      rw [toRoute_mapEntry]

/-- C8: `RouteEntry::virtualCluster` scans the virtual-cluster list in
declared order and returns the first entry whose matcher accepts the
request, or none when no entry matches; and the virtual-cluster list has
no effect on routing (replacing every entry's list leaves the match result
unchanged up to that replacement) or on retry outcomes (the retry policy,
and hence every `shouldRetry` decision, ignores it). -/
theorem virtual_cluster_first_match (e : RouteEntry) (h : RequestHeaders) :
    (e.virtualCluster h = none ↔
      ∀ vc ∈ e.virtualClusters, vc.accepts h = false) ∧
    (∀ vc, e.virtualCluster h = some vc →
      vc.accepts h = true ∧
      ∃ l1 l2, e.virtualClusters = l1 ++ vc :: l2 ∧
        ∀ u ∈ l1, u.accepts h = false) ∧
    (∀ (g : RouteEntry → List VirtualCluster) (cfg : Config)
        (hdrs : RequestHeaders) (rv : Nat),
      (cfg.mapEntries fun e2 => e2.withVirtualClusters (g e2)).route hdrs rv =
        (cfg.route hdrs rv).map
          (Route.mapEntry fun e2 => e2.withVirtualClusters (g e2))) ∧
    (∀ (l : List VirtualCluster) (resp : Option ResponseInfo)
        (reset : Option StreamResetReason) (g2 : Bool),
      (RetryState.initial (e.withVirtualClusters l).retryPolicy).shouldRetry
          resp reset g2 =
        (RetryState.initial e.retryPolicy).shouldRetry resp reset g2) := by
  refine ⟨?_, ?_, ?_, fun _ _ _ _ => rfl⟩
  · unfold RouteEntry.virtualCluster
    rw [List.find?_eq_none]
    constructor
    · intro hall vc hvc
      simpa using hall vc hvc
    · intro hall vc hvc
      simp [hall vc hvc]
  · intro vc hvc
    exact find?_eq_some_first _ _ _ hvc
  · intro g cfg hdrs rv
    exact route_mapEntries _ cfg hdrs rv

/-- Witness for C8: in the scenario's entry carrying one virtual cluster
matching `/api`, resolution returns that cluster, whose matcher accepts
the request. -/
theorem virtual_cluster_first_match_witness :
    demoEntryVC.virtualCluster demoHeaders = some demoVC ∧
    demoVC.accepts demoHeaders = true :=
  ⟨rfl,
    ((virtual_cluster_first_match demoEntryVC demoHeaders).2.1 demoVC rfl).1⟩

end Router
end Envoy
